import Mathlib

/-!
Shallow embedding of the StudyBuddy discussion-forum request handlers
(`base/views.py` and `base/api/views.py`).  The relational store is an
explicit `DB` record of rows; each handler becomes a function from the
current database and the request data to the new database and a response.
-/

set_option autoImplicit false

namespace StudyBuddy

/-- Lower one character: an ASCII capital letter moves down by 32, any
other character is untouched. -/
def lowerChar (c : Char) : Char :=
  if c.isUpper then Char.ofNat (c.toNat + 32) else c

/-- Embedding of Python `str.lower()` / the case folding used by Django's
`icontains`: lower each character. -/
def lowerStr (s : String) : String := ⟨s.data.map lowerChar⟩

/-- Does the string contain an ASCII capital letter? -/
def hasUpper (s : String) : Bool := s.data.any Char.isUpper

/-- Does `n` occur as a contiguous sublist of `h`?  Executable substring
test on character lists. -/
def charsContain (h n : List Char) : Bool :=
  match h with
  | [] => n.isEmpty
  | _ :: t => n.isPrefixOf h || charsContain t n

/-- Embedding of Django's `icontains` lookup: case-insensitive substring
test, `haystack` contains `needle`. -/
def icontains (haystack needle : String) : Bool :=
  charsContain (lowerStr haystack).data (lowerStr needle).data

/-- A user row (`User` model): id, unique login email, username, and the
stored credential, which the authentication backend checks. -/
structure User where
  id : Nat
  email : String
  username : String
  password : String
  deriving DecidableEq, Repr

/-- A topic row (`Topic` model): a category label. -/
structure Topic where
  id : Nat
  name : String
  deriving DecidableEq, Repr

/-- A room row (`Room` model): host and topic are foreign keys (by id),
participants is the many-to-many set of user ids. -/
structure Room where
  id : Nat
  host : Nat
  topic : Nat
  name : String
  description : String
  participants : List Nat
  deriving DecidableEq, Repr

/-- A message row (`Message` model): author and room foreign keys plus the
body text. -/
structure Message where
  id : Nat
  user : Nat
  room : Nat
  body : String
  deriving DecidableEq, Repr

/-- The relational store: one table per model. -/
structure DB where
  users : List User
  topics : List Topic
  rooms : List Room
  messages : List Message
  deriving DecidableEq, Repr

/-- Referential integrity and key uniqueness, as the store enforces them:
primary keys are unique and every foreign key resolves. -/
def DB.wf (db : DB) : Prop :=
  (db.users.map User.id).Nodup ∧
  (db.topics.map Topic.id).Nodup ∧
  (db.rooms.map Room.id).Nodup ∧
  (db.messages.map Message.id).Nodup ∧
  (∀ r ∈ db.rooms, ∃ t ∈ db.topics, t.id = r.topic) ∧
  (∀ m ∈ db.messages, ∃ r ∈ db.rooms, r.id = m.room)

/-- The two failures Django's `Model.objects.get` can raise. -/
inductive GetError where
  | doesNotExist
  | multipleObjectsReturned
  deriving DecidableEq, Repr

/-- Embedding of `Model.objects.get(...)`: exactly one matching row is
returned; zero rows raise `DoesNotExist`, several raise
`MultipleObjectsReturned`. -/
def djangoGet {α : Type} (rows : List α) (p : α → Bool) : Except GetError α :=
  match rows.filter p with
  | [] => .error .doesNotExist
  | [x] => .ok x
  | _ :: _ :: _ => .error .multipleObjectsReturned

/-- HTTP request methods the handlers distinguish. -/
inductive Method where
  | get
  | post
  deriving DecidableEq, Repr

/-- The responses a handler can produce: a rendered template, a redirect to
a named route, or a plain `HttpResponse` text body. -/
inductive HResp where
  | render (template : String)
  | redirect (target : String)
  | httpText (body : String)
  deriving DecidableEq, Repr

/-- Fresh primary key for a new topic row (auto-increment). -/
def nextTopicId (db : DB) : Nat :=
  db.topics.foldr (fun t acc => max acc (t.id + 1)) 0

/-- Fresh primary key for a new room row (auto-increment). -/
def nextRoomId (db : DB) : Nat :=
  db.rooms.foldr (fun r acc => max acc (r.id + 1)) 0

/-- Fresh primary key for a new message row (auto-increment). -/
def nextMessageId (db : DB) : Nat :=
  db.messages.foldr (fun m acc => max acc (m.id + 1)) 0

/-- Fresh primary key for a new user row (auto-increment). -/
def nextUserId (db : DB) : Nat :=
  db.users.foldr (fun u acc => max acc (u.id + 1)) 0

/-- `Q(topic__name__icontains=q)` on a room: the join resolves the room's
topic foreign key and tests its name. -/
def roomTopicNameMatch (db : DB) (r : Room) (q : String) : Bool :=
  db.topics.any (fun t => t.id == r.topic && icontains t.name q)

/-- `home` (views.py:26): rooms matching
`Q(topic__name__icontains=q) | Q(name__icontains=q) | Q(description__icontains=q)`. -/
def homeRooms (db : DB) (q : String) : List Room :=
  db.rooms.filter (fun r =>
    roomTopicNameMatch db r q || icontains r.name q || icontains r.description q)

/-- `home` (views.py:32): `room_count = rooms.count()` on the filtered
queryset. -/
def homeRoomCount (db : DB) (q : String) : Nat :=
  (homeRooms db q).length

/-- `home` (views.py:34):
`Message.objects.filter(Q(room__topic__name__icontains=q))`. -/
def homeRoomMessages (db : DB) (q : String) : List Message :=
  db.messages.filter (fun m =>
    db.rooms.any (fun r => r.id == m.room && roomTopicNameMatch db r q))

/-- `topicsPage` (views.py:340): `Topic.objects.filter(name__icontains=q)`. -/
def topicsPage (db : DB) (q : String) : List Topic :=
  db.topics.filter (fun t => icontains t.name q)

/-- `Topic.objects.get_or_create(name=topic_name)`: reuse the topic whose
name matches exactly, else insert a fresh one.  A `MultipleObjectsReturned`
from the inner `get` propagates; `DoesNotExist` triggers creation. -/
def getOrCreateTopic (db : DB) (topicName : String) :
    Except GetError (DB × Topic × Bool) :=
  match djangoGet db.topics (fun t => t.name == topicName) with
  | .ok t => .ok (db, t, false)
  | .error .doesNotExist =>
    let t : Topic := { id := nextTopicId db, name := topicName }
    .ok ({ db with topics := db.topics ++ [t] }, t, true)
  | .error .multipleObjectsReturned => .error .multipleObjectsReturned

/-- `room.save()` after mutating fields: overwrite the row with the same
primary key. -/
def saveRoom (db : DB) (r : Room) : DB :=
  { db with rooms := db.rooms.map (fun r0 => if r0.id == r.id then r else r0) }

/-- `room.delete()`: remove the row; the store cascades the deletion to the
room's messages. -/
def removeRoom (db : DB) (rid : Nat) : DB :=
  { db with
    rooms := db.rooms.filter (fun r => r.id != rid),
    messages := db.messages.filter (fun m => m.room != rid) }

/-- `message.delete()`: remove the message row. -/
def removeMessage (db : DB) (mid : Nat) : DB :=
  { db with messages := db.messages.filter (fun m => m.id != mid) }

/-- `our_room.participants.add(request.user)`: many-to-many add, a no-op
when the user is already in the set. -/
def addParticipant (db : DB) (rid uid : Nat) : DB :=
  { db with rooms := db.rooms.map (fun r =>
      if r.id == rid then
        if uid ∈ r.participants then r
        else { r with participants := r.participants ++ [uid] }
      else r) }

/-- `room` handler (views.py:120): look up the room; on POST create a
message from the request body, add the poster to the participants, and
redirect back to the room; on GET render the room page. -/
def roomHandler (db : DB) (userId : Nat) (method : Method) (pk : Nat)
    (body : String) : Except GetError (DB × HResp) :=
  match djangoGet db.rooms (fun r => r.id == pk) with
  | .error e => .error e
  | .ok ourRoom =>
    match method with
    | .post =>
      let msg : Message :=
        { id := nextMessageId db, user := userId, room := ourRoom.id, body := body }
      let db1 := { db with messages := db.messages ++ [msg] }
      .ok (addParticipant db1 ourRoom.id userId, .redirect "room")
    | .get => .ok (db, .render "base/room.html")

/-- `createRoom` handler (views.py:175): requires login (anonymous users
are redirected to the login page); on POST get-or-create the topic and
insert a room hosted by the acting user; on GET render the form. -/
def createRoom (db : DB) (userId : Option Nat) (method : Method)
    (topicName roomName description : String) : Except GetError (DB × HResp) :=
  match userId with
  | none => .ok (db, .redirect "login")
  | some uid =>
    match method with
    | .post =>
      match getOrCreateTopic db topicName with
      | .error e => .error e
      | .ok (db1, topic, _) =>
        let r : Room :=
          { id := nextRoomId db1, host := uid, topic := topic.id,
            name := roomName, description := description, participants := [] }
        .ok ({ db1 with rooms := db1.rooms ++ [r] }, .redirect "home")
    | .get => .ok (db, .render "base/room_form.html")

/-- `updateRoom` handler (views.py:210): requires login; looks up the room,
rejects any non-host with a plain text response before the POST branch; on
POST get-or-create the topic, overwrite name/topic/description, save, and
redirect home; on GET render the form. -/
def updateRoom (db : DB) (userId : Option Nat) (method : Method) (pk : Nat)
    (topicName roomName description : String) : Except GetError (DB × HResp) :=
  match userId with
  | none => .ok (db, .redirect "login")
  | some uid =>
    match djangoGet db.rooms (fun r => r.id == pk) with
    | .error e => .error e
    | .ok room =>
      if uid ≠ room.host then
        .ok (db, .httpText "You are not allowed to do that!")
      else
        match method with
        | .post =>
          match getOrCreateTopic db topicName with
          | .error e => .error e
          | .ok (db1, topic, _) =>
            let room2 :=
              { room with name := roomName, topic := topic.id,
                          description := description }
            .ok (saveRoom db1 room2, .redirect "home")
        | .get => .ok (db, .render "base/room_form.html")

/-- `deleteRoom` handler (views.py:248): requires login; looks up the room,
rejects any non-host with a plain text response; on POST delete the room
and redirect home; on GET render the confirmation page. -/
def deleteRoom (db : DB) (userId : Option Nat) (method : Method) (pk : Nat) :
    Except GetError (DB × HResp) :=
  match userId with
  | none => .ok (db, .redirect "login")
  | some uid =>
    match djangoGet db.rooms (fun r => r.id == pk) with
    | .error e => .error e
    | .ok room =>
      if uid ≠ room.host then
        .ok (db, .httpText "You are not allowed to do that!")
      else
        match method with
        | .post => .ok (removeRoom db room.id, .redirect "home")
        | .get => .ok (db, .render "base/delete.html")

/-- `deleteMessage` handler (views.py:275): requires login; looks up the
message, rejects any non-author with a plain text response; on POST delete
the message and redirect home; on GET render the confirmation page. -/
def deleteMessage (db : DB) (userId : Option Nat) (method : Method) (pk : Nat) :
    Except GetError (DB × HResp) :=
  match userId with
  | none => .ok (db, .redirect "login")
  | some uid =>
    match djangoGet db.messages (fun m => m.id == pk) with
    | .error e => .error e
    | .ok message =>
      if uid ≠ message.user then
        .ok (db, .httpText "You are not allowed to do that!")
      else
        match method with
        | .post => .ok (removeMessage db message.id, .redirect "home")
        | .get => .ok (db, .render "base/delete.html")

/-- `authenticate(request, email=email, password=password)`: the backend
resolves the credentials to a user, or to nothing. -/
def authenticate (db : DB) (email password : String) : Option Nat :=
  match db.users.find? (fun u => u.email == email && u.password == password) with
  | some u => some u.id
  | none => none

/-- Outcome of the `loginPage` handler: the error messages recorded via
`messages.error` in order, the session user after the request, and the
response. -/
structure LoginResult where
  errors : List String
  sessionUser : Option Nat
  resp : HResp
  deriving DecidableEq, Repr

/-- `loginPage` handler (views.py:44): an authenticated visitor is
redirected home.  On POST the email is lowercased, the user lookup failure
is swallowed by the bare `except` (recording only an error message), and
authentication is attempted regardless; success logs in and redirects
home, failure records a mismatch message and renders the page. -/
def loginPage (db : DB) (currentUser : Option Nat) (method : Method)
    (emailRaw password : String) : LoginResult :=
  if currentUser.isSome then
    { errors := [], sessionUser := currentUser, resp := .redirect "home" }
  else
    match method with
    | .get =>
      { errors := [], sessionUser := none,
        resp := .render "base/login_register.html" }
    | .post =>
      let email := lowerStr emailRaw
      let lookupErrors :=
        match djangoGet db.users (fun u => u.email == email) with
        | .ok _ => []
        | .error _ => ["User does not exist."]
      match authenticate db email password with
      | some uid =>
        { errors := lookupErrors, sessionUser := some uid,
          resp := .redirect "home" }
      | none =>
        { errors := lookupErrors ++ ["Email or Password does not match"],
          sessionUser := none, resp := .render "base/login_register.html" }

/-- The fields the registration form submits (the form layer itself —
`MyUserCreationForm` — is an external collaborator; its validity verdict is
passed in). -/
structure RegistrationForm where
  username : String
  email : String
  password : String
  deriving DecidableEq, Repr

/-- Outcome of the `registerPage` handler. -/
structure RegisterResult where
  db : DB
  errors : List String
  sessionUser : Option Nat
  resp : HResp
  deriving DecidableEq, Repr

/-- `registerPage` handler (views.py:93): on a valid POST the form's user
is saved with `user.username = user.username.lower()` applied first, the
user is logged in, and the request redirects home; an invalid form records
an error and re-renders. -/
def registerPage (db : DB) (method : Method) (formValid : Bool)
    (form : RegistrationForm) : RegisterResult :=
  match method with
  | .get =>
    { db := db, errors := [], sessionUser := none,
      resp := .render "base/login_register.html" }
  | .post =>
    if formValid then
      let u : User :=
        { id := nextUserId db, email := form.email,
          username := lowerStr form.username, password := form.password }
      { db := { db with users := db.users ++ [u] }, errors := [],
        sessionUser := some u.id, resp := .redirect "home" }
    else
      { db := db, errors := ["Error occured during registration"],
        sessionUser := none, resp := .render "base/login_register.html" }

/-- The fields `RoomSerializer` exposes for a room. -/
structure RoomPayload where
  id : Nat
  host : Nat
  topic : Nat
  name : String
  description : String
  participants : List Nat
  deriving DecidableEq, Repr

/-- `RoomSerializer(room, many=False)`. -/
def serializeRoom (r : Room) : RoomPayload :=
  { id := r.id, host := r.host, topic := r.topic, name := r.name,
    description := r.description, participants := r.participants }

/-- `getRoom` API view (api/views.py:43): `Room.objects.get(id=pk)` with
no handler around it, so a failed lookup surfaces as the lookup's own
error; a successful lookup returns the serialized room. -/
def getRoomApi (db : DB) (pk : Nat) : Except GetError RoomPayload :=
  match djangoGet db.rooms (fun r => r.id == pk) with
  | .error e => .error e
  | .ok r => .ok (serializeRoom r)

/-- `getRooms` API view (api/views.py:27): all rooms, serialized. -/
def getRoomsApi (db : DB) : List RoomPayload :=
  db.rooms.map serializeRoom

/-- Rewrite each message's body with `f`, leaving every other field. -/
def setBody (f : Message → String) (m : Message) : Message := { m with body := f m }

/-- A concrete database used to instantiate the theorems: two users, two
topics, two rooms (each hosted by the same-numbered user), one message
authored by user 1 in room 1. -/
def wdb : DB :=
  { users := [{ id := 1, email := "a@x.com", username := "alice", password := "pw1" },
              { id := 2, email := "b@x.com", username := "bob", password := "pw2" }],
    topics := [{ id := 1, name := "Games" }, { id := 2, name := "Math" }],
    rooms := [{ id := 1, host := 1, topic := 1, name := "Chess Club",
                description := "chess talk", participants := [1] },
              { id := 2, host := 2, topic := 2, name := "Algebra",
                description := "group theory", participants := [] }],
    messages := [{ id := 1, user := 1, room := 1, body := "hi" }] }

/-- Room 1 of `wdb`. -/
def wroom1 : Room :=
  { id := 1, host := 1, topic := 1, name := "Chess Club",
    description := "chess talk", participants := [1] }

/-- Message 1 of `wdb`. -/
def wmsg1 : Message := { id := 1, user := 1, room := 1, body := "hi" }

/-- Room 1 of `wdb` after the update exercised in the C8 witness. -/
def wroom1upd : Room := { wroom1 with name := "NewName", topic := 2, description := "NewDesc" }

/-! ### Helper lemmas -/

theorem lowerChar_not_upper (c : Char) : (lowerChar c).isUpper = false := by
  unfold lowerChar
  split
  · rename_i h
    simp only [Char.isUpper, ge_iff_le, Bool.and_eq_true, decide_eq_true_eq] at h
    obtain ⟨h1, h2⟩ := h
    have ha : 65 ≤ c.toNat := UInt32.le_toNat_of_le (by decide) h1
    have hb : c.toNat ≤ 90 := UInt32.toNat_le_of_le (by decide) h2
    generalize c.toNat = n at ha hb
    interval_cases n <;> decide
  · rename_i h
    exact Bool.not_eq_true _ |>.mp (by exact h)

theorem hasUpper_lowerStr (s : String) : hasUpper (lowerStr s) = false := by
  unfold hasUpper lowerStr
  simp only [List.any_map, List.any_eq_false, Function.comp_apply]
  intro c _
  simp [lowerChar_not_upper]

theorem charsContain_nil (l : List Char) : charsContain l [] = true := by
  induction l with
  | nil => rfl
  | cons c t ih => simp [charsContain, List.isPrefixOf, ih]

theorem icontains_empty (s : String) : icontains s "" = true := by
  unfold icontains
  have : (lowerStr "").data = [] := rfl
  rw [this]
  exact charsContain_nil _

theorem djangoGet_ok_iff {α : Type} (rows : List α) (p : α → Bool) (x : α) :
    djangoGet rows p = .ok x ↔ rows.filter p = [x] := by
  unfold djangoGet
  match h : rows.filter p with
  | [] => simp
  | [y] => simp [Except.ok.injEq, eq_comm]
  | _ :: _ :: _ => simp

theorem djangoGet_ok_mem {α : Type} {rows : List α} {p : α → Bool} {x : α}
    (h : djangoGet rows p = .ok x) : x ∈ rows ∧ p x = true := by
  rw [djangoGet_ok_iff] at h
  have : x ∈ rows.filter p := by rw [h]; exact List.mem_singleton_self x
  exact ⟨(List.mem_filter.mp this).1, (List.mem_filter.mp this).2⟩

theorem djangoGet_none {α : Type} (rows : List α) (p : α → Bool)
    (h : ∀ x ∈ rows, p x = false) : djangoGet rows p = .error .doesNotExist := by
  unfold djangoGet
  have : rows.filter p = [] := by
    rw [List.filter_eq_nil_iff]
    intro a ha
    simp [h a ha]
  rw [this]

/-- Filtering after a keyed in-place update: rows whose key matches are
mapped (to something whose key still matches), rows whose key does not
match are untouched, so filtering commutes with the update. -/
theorem filter_map_update {α : Type} (l : List α) (k : α → Bool) (f g : α → α)
    (hf1 : ∀ x, k x = true → f x = g x ∧ k (g x) = true)
    (hf2 : ∀ x, k x = false → f x = x) :
    (l.map f).filter k = (l.filter k).map g := by
  induction l with
  | nil => rfl
  | cons a t ih =>
    cases hk : k a with
    | true =>
      obtain ⟨hfa, hkg⟩ := hf1 a hk
      simp only [List.map_cons, List.filter_cons, hfa, hkg, if_true, hk, ih]
    | false =>
      rw [List.map_cons, hf2 a hk]
      simp only [List.filter_cons, hk, Bool.false_eq_true, ite_false, ih]

/-- `l.any (fun y => k y && p y)` collapses to `p x` when `x` is the unique
row of `l` whose key holds. -/
theorem anyKeyEq {α : Type} (l : List α) (k p : α → Bool) (x : α)
    (hx : x ∈ l) (hk : k x = true)
    (huniq : ∀ y ∈ l, k y = true → y = x) :
    (l.any fun y => k y && p y) = p x := by
  cases hpx : p x with
  | true =>
    apply List.any_eq_true.mpr
    exact ⟨x, hx, by simp [hk, hpx]⟩
  | false =>
    apply List.any_eq_false.mpr
    intro y hy
    intro hcon
    rw [Bool.and_eq_true] at hcon
    have hyx : y = x := huniq y hy hcon.1
    rw [hyx] at hcon
    rw [hcon.2] at hpx
    exact Bool.true_eq_false.mp hpx

theorem addParticipant_get (db : DB) (pk uid : Nat) (r : Room)
    (hr : djangoGet db.rooms (fun x => x.id == pk) = .ok r) :
    djangoGet (addParticipant db r.id uid).rooms (fun x => x.id == pk) =
      .ok (if uid ∈ r.participants then r
           else { r with participants := r.participants ++ [uid] }) := by
  have hfil : db.rooms.filter (fun x => x.id == pk) = [r] :=
    (djangoGet_ok_iff _ _ _).mp hr
  have hid : r.id = pk := beq_iff_eq.mp (djangoGet_ok_mem hr).2
  subst hid
  rw [djangoGet_ok_iff]
  unfold addParticipant
  rw [filter_map_update db.rooms (fun x => x.id == r.id)
      (fun x => if x.id == r.id then
          (if uid ∈ x.participants then x
           else { x with participants := x.participants ++ [uid] }) else x)
      (fun x => if uid ∈ x.participants then x
                else { x with participants := x.participants ++ [uid] })
      ?_ ?_, hfil]
  · rfl
  · intro x hx
    refine ⟨by simp [hx], ?_⟩
    by_cases hmem : uid ∈ x.participants
    · simp [hmem, hx]
    · simp [hmem, hx]
  · intro x hx
    simp [hx]

theorem saveRoom_get (db : DB) (pk : Nat) (r r2 : Room)
    (hr : djangoGet db.rooms (fun x => x.id == pk) = .ok r)
    (hid2 : r2.id = r.id) :
    djangoGet (saveRoom db r2).rooms (fun x => x.id == pk) = .ok r2 := by
  have hfil : db.rooms.filter (fun x => x.id == pk) = [r] :=
    (djangoGet_ok_iff _ _ _).mp hr
  have hid : r.id = pk := beq_iff_eq.mp (djangoGet_ok_mem hr).2
  subst hid
  rw [djangoGet_ok_iff]
  unfold saveRoom
  rw [filter_map_update db.rooms (fun x => x.id == r.id)
      (fun x => if x.id == r2.id then r2 else x) (fun _ => r2) ?_ ?_, hfil]
  · rfl
  · intro x hx
    refine ⟨by simp [hid2, hx], by simp [hid2]⟩
  · intro x hx
    have : (x.id == r2.id) = false := by rw [hid2]; exact hx
    simp [this]

theorem getOrCreateTopic_existing (db : DB) (tn : String) (t : Topic)
    (ht : djangoGet db.topics (fun x => x.name == tn) = .ok t) :
    getOrCreateTopic db tn = .ok (db, t, false) := by
  unfold getOrCreateTopic
  rw [ht]

theorem getOrCreateTopic_fresh (db : DB) (tn : String)
    (habs : ∀ t ∈ db.topics, t.name ≠ tn) :
    getOrCreateTopic db tn =
      .ok ({ db with topics := db.topics ++ [{ id := nextTopicId db, name := tn }] },
           { id := nextTopicId db, name := tn }, true) := by
  unfold getOrCreateTopic
  rw [djangoGet_none _ _ (fun t htm => by simp [habs t htm])]

theorem getOrCreateTopic_frame (db : DB) (tn : String) (dbt : DB) (t : Topic)
    (c : Bool) (hg : getOrCreateTopic db tn = .ok (dbt, t, c)) :
    dbt.rooms = db.rooms ∧ dbt.users = db.users ∧ dbt.messages = db.messages := by
  unfold getOrCreateTopic at hg
  match h : djangoGet db.topics (fun x => x.name == tn) with
  | .ok t0 =>
    rw [h] at hg
    simp only [Except.ok.injEq, Prod.mk.injEq] at hg
    rw [← hg.1]
    exact ⟨rfl, rfl, rfl⟩
  | .error .doesNotExist =>
    rw [h] at hg
    simp only [Except.ok.injEq, Prod.mk.injEq] at hg
    rw [← hg.1]
    exact ⟨rfl, rfl, rfl⟩
  | .error .multipleObjectsReturned =>
    rw [h] at hg
    exact Except.noConfusion hg

theorem createRoom_post_eq (db : DB) (uid : Nat) (tn rn d : String)
    (dbt : DB) (t : Topic) (c : Bool)
    (hg : getOrCreateTopic db tn = .ok (dbt, t, c)) :
    createRoom db (some uid) .post tn rn d =
      .ok ({ dbt with rooms := dbt.rooms ++
        [{ id := nextRoomId dbt, host := uid, topic := t.id, name := rn,
           description := d, participants := [] }] }, .redirect "home") := by
  unfold createRoom
  rw [hg]

theorem updateRoom_post_eq (db : DB) (uid pk : Nat) (tn rn d : String)
    (r : Room)
    (hr : djangoGet db.rooms (fun x => x.id == pk) = .ok r)
    (hhost : uid = r.host)
    (dbt : DB) (t : Topic) (c : Bool)
    (hg : getOrCreateTopic db tn = .ok (dbt, t, c)) :
    updateRoom db (some uid) .post pk tn rn d =
      .ok (saveRoom dbt { r with name := rn, topic := t.id, description := d },
        .redirect "home") := by
  unfold updateRoom
  rw [hr]
  dsimp only
  rw [if_neg (by simp [hhost]), hg]

/-! ### Claim theorems -/

/-- C1: for every query string `q`, the home listing returns exactly the
rooms where `q` is a case-insensitive substring of the room's topic name,
or of the room name, or of the room description, and the reported
`room_count` equals the number of rooms in that filtered set. -/
theorem home_filter_correct (db : DB) (q : String)
    (huniq : ∀ t1 ∈ db.topics, ∀ t2 ∈ db.topics, t1.id = t2.id → t1 = t2) :
    homeRoomCount db q = (homeRooms db q).length ∧
    ∀ r ∈ db.rooms, ∀ t ∈ db.topics, t.id = r.topic →
      (r ∈ homeRooms db q ↔
        (icontains t.name q || icontains r.name q ||
         icontains r.description q) = true) := by
  refine ⟨rfl, ?_⟩
  intro r hr t ht htid
  have hmatch : roomTopicNameMatch db r q = icontains t.name q := by
    unfold roomTopicNameMatch
    apply anyKeyEq db.topics (fun y => y.id == r.topic)
      (fun y => icontains y.name q) t ht (beq_iff_eq.mpr htid)
    intro y hy hky
    exact huniq y hy t ht (by rw [htid]; exact beq_iff_eq.mp hky)
  unfold homeRooms
  rw [List.mem_filter]
  constructor
  · intro hmem
    have := hmem.2
    rwa [hmatch] at this
  · intro hp
    exact ⟨hr, by rw [hmatch]; exact hp⟩

/-- Witness for C1 at the concrete database and query `"chess"`. -/
theorem home_filter_correct_witness :
    (∀ t1 ∈ wdb.topics, ∀ t2 ∈ wdb.topics, t1.id = t2.id → t1 = t2) ∧
    (homeRoomCount wdb "chess" = (homeRooms wdb "chess").length ∧
     ∀ r ∈ wdb.rooms, ∀ t ∈ wdb.topics, t.id = r.topic →
       (r ∈ homeRooms wdb "chess" ↔
         (icontains t.name "chess" || icontains r.name "chess" ||
          icontains r.description "chess") = true)) :=
  ⟨by decide, home_filter_correct wdb "chess" (by decide)⟩

/-- C2: an authenticated identity that is not the room's host (for room
update/delete) or not the message's author (for message delete) gets the
plain-text "not allowed" response and the database is unchanged. -/
theorem ownership_gate_no_mutation (db : DB) (uid : Nat) (method : Method)
    (pkR pkM : Nat) (tn rn d : String) (r : Room) (m : Message)
    (hr : djangoGet db.rooms (fun x => x.id == pkR) = .ok r)
    (hhost : uid ≠ r.host)
    (hm : djangoGet db.messages (fun x => x.id == pkM) = .ok m)
    (hauthor : uid ≠ m.user) :
    updateRoom db (some uid) method pkR tn rn d =
      .ok (db, .httpText "You are not allowed to do that!") ∧
    deleteRoom db (some uid) method pkR =
      .ok (db, .httpText "You are not allowed to do that!") ∧
    deleteMessage db (some uid) method pkM =
      .ok (db, .httpText "You are not allowed to do that!") := by
  refine ⟨?_, ?_, ?_⟩
  · unfold updateRoom
    rw [hr]
    simp [hhost]
  · unfold deleteRoom
    rw [hr]
    simp [hhost]
  · unfold deleteMessage
    rw [hm]
    simp [hauthor]

/-- Witness for C2: user 2 attacks room 1 (hosted by user 1) and message 1
(authored by user 1). -/
theorem ownership_gate_no_mutation_witness :
    djangoGet wdb.rooms (fun x => x.id == 1) = .ok wroom1 ∧
    djangoGet wdb.messages (fun x => x.id == 1) = .ok wmsg1 ∧
    (2 ≠ wroom1.host ∧ 2 ≠ wmsg1.user) ∧
    (updateRoom wdb (some 2) .post 1 "Games" "N" "D" =
       .ok (wdb, .httpText "You are not allowed to do that!") ∧
     deleteRoom wdb (some 2) .post 1 =
       .ok (wdb, .httpText "You are not allowed to do that!") ∧
     deleteMessage wdb (some 2) .post 1 =
       .ok (wdb, .httpText "You are not allowed to do that!")) :=
  ⟨rfl, rfl, by decide,
   ownership_gate_no_mutation wdb 2 .post 1 1 "Games" "N" "D" wroom1 wmsg1
     rfl (by decide) rfl (by decide)⟩

/-- Evaluation of the room handler's POST branch once the room lookup
succeeds. -/
theorem roomHandler_post_eq (db : DB) (uid pk : Nat) (body : String) (r : Room)
    (hr : djangoGet db.rooms (fun x => x.id == pk) = .ok r) :
    roomHandler db uid .post pk body =
      .ok (addParticipant
        { db with messages := db.messages ++
          [{ id := nextMessageId db, user := uid, room := r.id, body := body }] }
        r.id uid, .redirect "room") := by
  unfold roomHandler
  rw [hr]

/-- C3: posting to a room appends a message linking the body, the room and
the acting identity, adds the poster to the room's participant set, and
redirects to the room view; a poster who was not yet a participant appears
in the set exactly once, and a second post leaves the set unchanged. -/
theorem post_message_participants (db : DB) (uid pk : Nat) (body : String)
    (r : Room)
    (hr : djangoGet db.rooms (fun x => x.id == pk) = .ok r)
    (hnew : uid ∉ r.participants) :
    ∃ db1, roomHandler db uid .post pk body = .ok (db1, .redirect "room") ∧
      db1.messages = db.messages ++
        [{ id := nextMessageId db, user := uid, room := r.id, body := body }] ∧
      djangoGet db1.rooms (fun x => x.id == pk) =
        .ok { r with participants := r.participants ++ [uid] } ∧
      (r.participants ++ [uid]).count uid = 1 ∧
      ∀ body2, ∃ db2,
        roomHandler db1 uid .post pk body2 = .ok (db2, .redirect "room") ∧
        djangoGet db2.rooms (fun x => x.id == pk) =
          .ok { r with participants := r.participants ++ [uid] } := by
  have hdb' : djangoGet
      ({ db with messages := db.messages ++
         [{ id := nextMessageId db, user := uid, room := r.id, body := body }] } : DB).rooms
      (fun x => x.id == pk) = .ok r := hr
  have hget1 := addParticipant_get _ pk uid r hdb'
  rw [if_neg hnew] at hget1
  refine ⟨_, roomHandler_post_eq db uid pk body r hr, rfl, hget1, ?_, ?_⟩
  · rw [List.count_append, List.count_eq_zero.mpr hnew, List.count_singleton_self]
  · intro body2
    have hdb'' : djangoGet
        ({ (addParticipant
            { db with messages := db.messages ++
              [{ id := nextMessageId db, user := uid, room := r.id, body := body }] }
            r.id uid) with messages := (addParticipant
            { db with messages := db.messages ++
              [{ id := nextMessageId db, user := uid, room := r.id, body := body }] }
            r.id uid).messages ++
          [{ id := nextMessageId (addParticipant
              { db with messages := db.messages ++
                [{ id := nextMessageId db, user := uid, room := r.id, body := body }] }
              r.id uid),
             user := uid,
             room := ({ r with participants := r.participants ++ [uid] } : Room).id,
             body := body2 }] } : DB).rooms
        (fun x => x.id == pk) =
        .ok ({ r with participants := r.participants ++ [uid] } : Room) := hget1
    have hmem : uid ∈ ({ r with participants := r.participants ++ [uid] } : Room).participants := by
      simp
    have hget2 := addParticipant_get _ pk uid _ hdb''
    rw [if_pos hmem] at hget2
    exact ⟨_, roomHandler_post_eq _ uid pk body2 _ hget1, hget2⟩

/-- Witness for C3: user 2 posts in room 1 of the concrete database. -/
theorem post_message_participants_witness :
    djangoGet wdb.rooms (fun x => x.id == 1) = .ok wroom1 ∧
    (2 ∉ wroom1.participants) ∧
    (∃ db1, roomHandler wdb 2 .post 1 "hello" = .ok (db1, .redirect "room") ∧
      db1.messages = wdb.messages ++
        [{ id := nextMessageId wdb, user := 2, room := wroom1.id, body := "hello" }] ∧
      djangoGet db1.rooms (fun x => x.id == 1) =
        .ok { wroom1 with participants := wroom1.participants ++ [2] } ∧
      (wroom1.participants ++ [2]).count 2 = 1 ∧
      ∀ body2, ∃ db2,
        roomHandler db1 2 .post 1 body2 = .ok (db2, .redirect "room") ∧
        djangoGet db2.rooms (fun x => x.id == 1) =
          .ok { wroom1 with participants := wroom1.participants ++ [2] }) :=
  ⟨rfl, by decide, post_message_participants wdb 2 1 "hello" wroom1 rfl (by decide)⟩

/-- C5: fetching a single room through the read API with an identifier
that resolves to no room yields the `DoesNotExist` failure — the
not-found condition, a constructor distinct from every other error — and
never a room payload. -/
theorem getRoom_notFound (db : DB) (pk : Nat)
    (habs : ∀ r ∈ db.rooms, r.id ≠ pk) :
    getRoomApi db pk = .error .doesNotExist ∧
    (∀ p : RoomPayload, getRoomApi db pk ≠ .ok p) ∧
    GetError.doesNotExist ≠ GetError.multipleObjectsReturned := by
  have h : djangoGet db.rooms (fun r => r.id == pk) = .error .doesNotExist :=
    djangoGet_none _ _ (fun r hr => by simp [habs r hr])
  refine ⟨?_, ?_, by decide⟩
  · unfold getRoomApi
    rw [h]
  · intro p hcon
    unfold getRoomApi at hcon
    rw [h] at hcon
    exact Except.noConfusion hcon

/-- Witness for C5 at identifier 99, absent from the concrete database. -/
theorem getRoom_notFound_witness :
    (∀ r ∈ wdb.rooms, r.id ≠ 99) ∧
    (getRoomApi wdb 99 = .error .doesNotExist ∧
     (∀ p : RoomPayload, getRoomApi wdb 99 ≠ .ok p) ∧
     GetError.doesNotExist ≠ GetError.multipleObjectsReturned) :=
  ⟨by decide, getRoom_notFound wdb 99 (by decide)⟩

/-- C7: with the empty query every filter matches everything — the home
listing returns every room, the home message list returns every message
(given referential integrity of the joins), and the topics listing
returns every topic. -/
theorem empty_query_matches_all (db : DB)
    (href : ∀ m ∈ db.messages, ∃ r ∈ db.rooms,
      r.id = m.room ∧ ∃ t ∈ db.topics, t.id = r.topic) :
    homeRooms db "" = db.rooms ∧ homeRoomMessages db "" = db.messages ∧
    topicsPage db "" = db.topics := by
  refine ⟨?_, ?_, ?_⟩
  · unfold homeRooms
    apply List.filter_eq_self.mpr
    intro r _
    simp [icontains_empty]
  · unfold homeRoomMessages
    apply List.filter_eq_self.mpr
    intro m hm
    obtain ⟨r, hrmem, hrid, t, htmem, htid⟩ := href m hm
    apply List.any_eq_true.mpr
    refine ⟨r, hrmem, ?_⟩
    rw [Bool.and_eq_true]
    refine ⟨beq_iff_eq.mpr hrid, ?_⟩
    unfold roomTopicNameMatch
    apply List.any_eq_true.mpr
    refine ⟨t, htmem, ?_⟩
    rw [Bool.and_eq_true]
    exact ⟨beq_iff_eq.mpr htid, icontains_empty _⟩
  · unfold topicsPage
    apply List.filter_eq_self.mpr
    intro t _
    exact icontains_empty _

/-- Witness for C7 at the concrete database. -/
theorem empty_query_matches_all_witness :
    (∀ m ∈ wdb.messages, ∃ r ∈ wdb.rooms,
      r.id = m.room ∧ ∃ t ∈ wdb.topics, t.id = r.topic) ∧
    (homeRooms wdb "" = wdb.rooms ∧ homeRoomMessages wdb "" = wdb.messages ∧
     topicsPage wdb "" = wdb.topics) :=
  ⟨by decide, empty_query_matches_all wdb (by decide)⟩

/-- C9: when no user carries the submitted email, the lookup failure is
swallowed (only the "User does not exist." message is recorded) and
authentication still runs: its failure message is also recorded, which is
only reachable through the `authenticate` call after the lookup. -/
theorem login_missing_email_attempts_auth (db : DB) (emailRaw pw : String)
    (hno : ∀ u ∈ db.users, u.email ≠ lowerStr emailRaw) :
    loginPage db none .post emailRaw pw =
      { errors := ["User does not exist.", "Email or Password does not match"],
        sessionUser := none, resp := .render "base/login_register.html" } := by
  have hget : djangoGet db.users (fun u => u.email == lowerStr emailRaw) =
      .error .doesNotExist :=
    djangoGet_none _ _ (fun u hu => by simp [hno u hu])
  have hauth : authenticate db (lowerStr emailRaw) pw = none := by
    unfold authenticate
    rw [List.find?_eq_none.mpr]
    intro u hu
    simp [hno u hu]
  unfold loginPage
  simp only [Option.isSome_none, Bool.false_eq_true, if_false, hget, hauth]
  rfl

/-- Witness for C9: the email `ghost@x.com` belongs to no user of the
concrete database. -/
theorem login_missing_email_attempts_auth_witness :
    (∀ u ∈ wdb.users, u.email ≠ lowerStr "ghost@x.com") ∧
    loginPage wdb none .post "ghost@x.com" "pw" =
      { errors := ["User does not exist.", "Email or Password does not match"],
        sessionUser := none, resp := .render "base/login_register.html" } :=
  ⟨by decide, login_missing_email_attempts_auth wdb "ghost@x.com" "pw" (by decide)⟩

/-- C10: a valid registration saves exactly one new user whose username
is the lowercasing of the submitted username, a string holding no
uppercase character. -/
theorem register_lowercases (db : DB) (f : RegistrationForm) :
    (registerPage db .post true f).db.users =
      db.users ++ [{ id := nextUserId db, email := f.email,
                     username := lowerStr f.username, password := f.password }] ∧
    (registerPage db .post true f).resp = .redirect "home" ∧
    hasUpper (lowerStr f.username) = false :=
  ⟨rfl, rfl, hasUpper_lowerStr _⟩

/-- C4: creating a room, or updating a room, with a topic name exactly
equal to an existing topic's name reuses that topic and adds no topic row;
a topic name not yet present adds exactly one new topic row. -/
theorem topic_dedup (db : DB) (tn rn d : String) (uid pk : Nat) :
    (∀ t, djangoGet db.topics (fun x => x.name == tn) = .ok t →
      (∃ db1, createRoom db (some uid) .post tn rn d =
          .ok (db1, .redirect "home") ∧ db1.topics = db.topics) ∧
      (∀ r, djangoGet db.rooms (fun x => x.id == pk) = .ok r → uid = r.host →
        ∃ db1, updateRoom db (some uid) .post pk tn rn d =
          .ok (db1, .redirect "home") ∧ db1.topics = db.topics)) ∧
    ((∀ t ∈ db.topics, t.name ≠ tn) →
      (∃ db1, createRoom db (some uid) .post tn rn d =
          .ok (db1, .redirect "home") ∧
        db1.topics = db.topics ++ [{ id := nextTopicId db, name := tn }] ∧
        (db1.topics.filter (fun x => x.name == tn)).length = 1) ∧
      (∀ r, djangoGet db.rooms (fun x => x.id == pk) = .ok r → uid = r.host →
        ∃ db1, updateRoom db (some uid) .post pk tn rn d =
          .ok (db1, .redirect "home") ∧
        db1.topics = db.topics ++ [{ id := nextTopicId db, name := tn }] ∧
        (db1.topics.filter (fun x => x.name == tn)).length = 1)) := by
  constructor
  · intro t ht
    have hg := getOrCreateTopic_existing db tn t ht
    constructor
    · exact ⟨_, createRoom_post_eq db uid tn rn d db t false hg, rfl⟩
    · intro r hr hhost
      exact ⟨_, updateRoom_post_eq db uid pk tn rn d r hr hhost db t false hg, rfl⟩
  · intro habs
    have hg := getOrCreateTopic_fresh db tn habs
    have hflt : ((db.topics ++ [{ id := nextTopicId db, name := tn }] : List Topic).filter
        (fun x => x.name == tn)).length = 1 := by
      rw [List.filter_append,
        List.filter_eq_nil_iff.mpr (fun t0 htm => by simp [habs t0 htm])]
      simp
    constructor
    · exact ⟨_, createRoom_post_eq db uid tn rn d _ _ _ hg, rfl, hflt⟩
    · intro r hr hhost
      exact ⟨_, updateRoom_post_eq db uid pk tn rn d r hr hhost _ _ _ hg, rfl, hflt⟩

/-- Witness for C4: the name `Games` reuses topic 1 of the concrete
database, the name `Biology` creates exactly one new topic. -/
theorem topic_dedup_witness :
    djangoGet wdb.topics (fun x => x.name == "Games") =
      .ok ({ id := 1, name := "Games" } : Topic) ∧
    (∃ db1, createRoom wdb (some 1) .post "Games" "N" "D" =
        .ok (db1, .redirect "home") ∧ db1.topics = wdb.topics) ∧
    (∀ t ∈ wdb.topics, t.name ≠ "Biology") ∧
    (∃ db1, createRoom wdb (some 1) .post "Biology" "N" "D" =
        .ok (db1, .redirect "home") ∧
      db1.topics = wdb.topics ++ [{ id := nextTopicId wdb, name := "Biology" }] ∧
      (db1.topics.filter (fun x => x.name == "Biology")).length = 1) :=
  ⟨rfl,
   ((topic_dedup wdb "Games" "N" "D" 1 1).1 { id := 1, name := "Games" } rfl).1,
   by decide,
   ((topic_dedup wdb "Biology" "N" "D" 1 1).2 (by decide)).1⟩

/-- C6: on the home page the displayed messages are exactly those whose
room's topic name contains the query case-insensitively, and the message
body plays no role: rewriting every body commutes with the filter. -/
theorem home_messages_topic_only (db : DB) (q : String) (f : Message → String) :
    (∀ m ∈ db.messages, ∀ r ∈ db.rooms, r.id = m.room →
      (∀ r' ∈ db.rooms, r'.id = m.room → r' = r) →
      ∀ t ∈ db.topics, t.id = r.topic →
      (∀ t' ∈ db.topics, t'.id = r.topic → t' = t) →
      (m ∈ homeRoomMessages db q ↔ icontains t.name q = true)) ∧
    homeRoomMessages { db with messages := db.messages.map (setBody f) } q =
      (homeRoomMessages db q).map (setBody f) := by
  constructor
  · intro m hm r hrmem hrid huniqR t htmem htid huniqT
    have hmatch : roomTopicNameMatch db r q = icontains t.name q := by
      unfold roomTopicNameMatch
      apply anyKeyEq db.topics (fun y => y.id == r.topic)
        (fun y => icontains y.name q) t htmem (beq_iff_eq.mpr htid)
      intro y hy hky
      exact huniqT y hy (beq_iff_eq.mp hky)
    have hany : (db.rooms.any fun r0 => r0.id == m.room && roomTopicNameMatch db r0 q)
        = roomTopicNameMatch db r q := by
      apply anyKeyEq db.rooms (fun y => y.id == m.room)
        (fun y => roomTopicNameMatch db y q) r hrmem (beq_iff_eq.mpr hrid)
      intro y hy hky
      exact huniqR y hy (beq_iff_eq.mp hky)
    unfold homeRoomMessages
    rw [List.mem_filter]
    constructor
    · intro hmem
      have h2 := hmem.2
      rwa [hany, hmatch] at h2
    · intro hp
      exact ⟨hm, by rw [hany, hmatch]; exact hp⟩
  · unfold homeRoomMessages
    rw [List.filter_map]
    congr 1

/-- Witness for C6: message 1 of the concrete database sits in room 1
tagged `Games`, so it is listed for the query `gam`; rewriting bodies
leaves the listing's shape unchanged. -/
theorem home_messages_topic_only_witness :
    (wmsg1 ∈ wdb.messages ∧ wroom1 ∈ wdb.rooms ∧ wroom1.id = wmsg1.room ∧
     (∀ r' ∈ wdb.rooms, r'.id = wmsg1.room → r' = wroom1) ∧
     ({ id := 1, name := "Games" } : Topic) ∈ wdb.topics ∧
     ({ id := 1, name := "Games" } : Topic).id = wroom1.topic ∧
     (∀ t' ∈ wdb.topics, t'.id = wroom1.topic →
        t' = ({ id := 1, name := "Games" } : Topic))) ∧
    (wmsg1 ∈ homeRoomMessages wdb "gam" ↔
      icontains ({ id := 1, name := "Games" } : Topic).name "gam" = true) ∧
    homeRoomMessages
        { wdb with messages := wdb.messages.map (setBody (fun _ => "X")) } "gam" =
      (homeRoomMessages wdb "gam").map (setBody (fun _ => "X")) :=
  ⟨by decide,
   (home_messages_topic_only wdb "gam" (fun _ => "X")).1 wmsg1 (by decide)
     wroom1 (by decide) (by decide) (by decide)
     { id := 1, name := "Games" } (by decide) (by decide) (by decide),
   (home_messages_topic_only wdb "gam" (fun _ => "X")).2⟩

/-- C8: a successful room update by its host rewrites only the room's
name, topic and description; the stored row keeps the old host and
participant set, and the user and message tables are untouched. -/
theorem update_room_frame (db : DB) (uid pk : Nat) (tn rn d : String)
    (r : Room) (dbt : DB) (t : Topic) (c : Bool)
    (hr : djangoGet db.rooms (fun x => x.id == pk) = .ok r)
    (hhost : uid = r.host)
    (hg : getOrCreateTopic db tn = .ok (dbt, t, c)) :
    ∃ db2, updateRoom db (some uid) .post pk tn rn d =
        .ok (db2, .redirect "home") ∧
      djangoGet db2.rooms (fun x => x.id == pk) =
        .ok { r with name := rn, topic := t.id, description := d } ∧
      ({ r with name := rn, topic := t.id, description := d } : Room).host =
        r.host ∧
      ({ r with name := rn, topic := t.id, description := d } : Room).participants =
        r.participants ∧
      db2.users = db.users ∧ db2.messages = db.messages := by
  obtain ⟨hrooms, husers, hmsgs⟩ := getOrCreateTopic_frame db tn dbt t c hg
  have hrt : djangoGet dbt.rooms (fun x => x.id == pk) = .ok r := by
    rw [hrooms]; exact hr
  refine ⟨_, updateRoom_post_eq db uid pk tn rn d r hr hhost dbt t c hg,
    ?_, rfl, rfl, ?_, ?_⟩
  · exact saveRoom_get dbt pk r _ hrt rfl
  · show dbt.users = db.users
    exact husers
  · show dbt.messages = db.messages
    exact hmsgs

/-- Witness for C8: user 1 retags their room 1 to the existing topic
`Math` with a new name and description. -/
theorem update_room_frame_witness :
    djangoGet wdb.rooms (fun x => x.id == 1) = .ok wroom1 ∧
    (1 = wroom1.host) ∧
    getOrCreateTopic wdb "Math" = .ok (wdb, ({ id := 2, name := "Math" } : Topic), false) ∧
    (∃ db2, updateRoom wdb (some 1) .post 1 "Math" "NewName" "NewDesc" =
        .ok (db2, .redirect "home") ∧
      djangoGet db2.rooms (fun x => x.id == 1) = .ok wroom1upd ∧
      wroom1upd.host = wroom1.host ∧
      wroom1upd.participants = wroom1.participants ∧
      db2.users = wdb.users ∧ db2.messages = wdb.messages) :=
  ⟨rfl, rfl, rfl,
   update_room_frame wdb 1 1 "Math" "NewName" "NewDesc" wroom1 wdb
     { id := 2, name := "Math" } false rfl rfl rfl⟩

end StudyBuddy
